import Mathlib

/-!
# AviationStreamlit: verification of the raw-SQL execution core

Shallow embedding of the two source files of the repository:

* `src/app.py`  — the Streamlit dashboard (namespace `App` below): its
  `execute_sql_query`, the "Execute SQL" button handler of the Custom SQL
  page, the table loader of the Explore Tables page, the sidebar query
  history display, and the pandas `to_csv(index=False)` export.
* `src/main.py` — the FastAPI forwarder (namespace `Api` below): its
  `execute_sql_query` helper and the two routes `POST /data/execute_sql`
  and `GET /data/{table_name}`.

The database driver (SQLAlchemy + pandas `read_sql`) is modelled as an
oracle `DBModel σ` over an abstract committed-state type `σ`: `readSql`
may return rows (and a provisional post-state that is discarded unless
committed), `execStmt` returns a provisional post-state.  Every modelled
entry point also returns the list of driver-level events it performed
(session acquire/release, statement reads and executions, commits), so
that resource-handling and "no commit" claims are statements about an
explicit trace rather than about absent code.
-/

/-! ## Python string primitives used by the sources -/

/-- Python `str.isspace` characters relevant to `str.strip()` (ASCII). -/
def pyIsSpace (c : Char) : Bool :=
  c = ' ' || c = '\t' || c = '\n' || c = '\r' || c = '\x0b' || c = '\x0c'

/-- Python `s.strip()`: remove leading and trailing whitespace. -/
def pyStrip (s : String) : String :=
  String.mk (((s.data.dropWhile pyIsSpace).reverse.dropWhile pyIsSpace).reverse)

/-- Python `s.lower()` (ASCII case fold, as used on SQL keywords). -/
def pyLower (s : String) : String :=
  String.mk (s.data.map Char.toLower)

/-- Python `s.startswith(pre)`. -/
def pyStartswith (s pre : String) : Bool :=
  pre.data.isPrefixOf s.data

/-- The dispatch test of `app.py` line 40:
`query.strip().lower().startswith("select")`. -/
def isSelectQuery (query : String) : Bool :=
  pyStartswith (pyLower (pyStrip query)) "select"

/-! ## Data model: cell values and pandas DataFrames -/

/-- A database cell value as it appears in this repository's tables:
an integer or a text. -/
inductive Value where
  | int (n : Int)
  | str (s : String)
deriving DecidableEq

/-- The string pandas prints for a cell in `to_csv` output. -/
def renderValue : Value → String
  | .int n => toString n
  | .str s => s

/-- A pandas `DataFrame` as produced by `pd.read_sql`: ordered column
names and ordered rows, each row listing one value per column. -/
structure DataFrame where
  columns : List String
  rows : List (List Value)
deriving DecidableEq

/-- The literal `pd.DataFrame()` constructed on the write and error
paths of `app.py`. -/
def emptyDataFrame : DataFrame := ⟨[], []⟩

/-- pandas `df.empty`: true when either axis has length zero. -/
def DataFrame.empty (df : DataFrame) : Bool :=
  df.rows.isEmpty || df.columns.isEmpty

/-- `df.to_dict(orient="records")` of `main.py`: one column-keyed
association list per row, in row order. -/
def toRecords (df : DataFrame) : List (List (String × Value)) :=
  df.rows.map (fun r => df.columns.zip r)

/-! ## The database driver oracle and its event trace -/

/-- Driver-level events performed by one modelled entry point, in order. -/
inductive DbEvent where
  | acquire
  | release
  | read (query : String)
  | exec (query : String)
  | commit
deriving DecidableEq

def DbEvent.isAcquire : DbEvent → Bool
  | .acquire => true
  | _ => false

def DbEvent.isRelease : DbEvent → Bool
  | .release => true
  | _ => false

def DbEvent.isCommit : DbEvent → Bool
  | .commit => true
  | _ => false

/-- A trace is session-balanced when it releases exactly as many
sessions as it acquires: nothing stays open. -/
def sessionBalanced (tr : List DbEvent) : Prop :=
  (tr.filter DbEvent.isAcquire).length = (tr.filter DbEvent.isRelease).length

/-- The database driver, abstracted over the committed-state type `σ`.
`readSql c q` models `pd.read_sql(q, ...)` against committed state `c`:
on success it yields the materialized rows and a provisional post-state
(discarded unless a commit follows); on failure, the driver's error
message.  `execStmt c q` models `session.execute(text(q))`: a
provisional post-state or an error message. -/
structure DBModel (σ : Type) where
  readSql : σ → String → Except String (DataFrame × σ)
  execStmt : σ → String → Except String σ

/-! ## `src/app.py`: the Streamlit variant -/

namespace App

/-- Streamlit messages emitted while handling one user action
(`st.success` / `st.error` / `st.warning`), in emission order. -/
inductive UiMsg where
  | success (s : String)
  | error (s : String)
  | warning (s : String)
deriving DecidableEq

/-- The outcome of one call to `app.py`'s `execute_sql_query`: the
returned DataFrame, the Streamlit messages emitted, the committed
database state afterwards, and the driver events performed. -/
structure ExecResult (σ : Type) where
  df : DataFrame
  msgs : List UiMsg
  committed : σ
  trace : List DbEvent
deriving DecidableEq

/-- Text of `app.py` line 46. -/
def successMsg : String := "✅ Query executed successfully (no results to display)."

/-- Text of `app.py` line 49 around the stringified exception. -/
def sqlErrorMsg (e : String) : String := "SQL Execution Error: " ++ e

/-- `app.py` lines 37–50.  Inside `with SessionLocal() as session:` a
leading-`select` query goes through `pd.read_sql` and its rows are
returned; any other statement goes through `session.execute` followed by
`session.commit()` and an empty DataFrame is returned with a success
message.  Any exception is caught, shown via `st.error` with the raw
driver text, and an empty DataFrame is returned; the `with` block closes
the session on every path, so each trace releases what it acquired, and
only the successful non-select path commits. -/
def execute_sql_query {σ : Type} (M : DBModel σ) (c : σ) (query : String) :
    ExecResult σ :=
  if isSelectQuery query then
    match M.readSql c query with
    | .ok (df, _p) => ⟨df, [], c, [.acquire, .read query, .release]⟩
    | .error e =>
        ⟨emptyDataFrame, [.error (sqlErrorMsg e)], c, [.acquire, .read query, .release]⟩
  else
    match M.execStmt c query with
    | .ok p =>
        ⟨emptyDataFrame, [.success successMsg], p, [.acquire, .exec query, .commit, .release]⟩
    | .error e =>
        ⟨emptyDataFrame, [.error (sqlErrorMsg e)], c, [.acquire, .exec query, .release]⟩

/-- The per-user Streamlit session state touched by the Custom SQL page:
`st.session_state.query_history` and `st.session_state.query_result`. -/
structure StSession where
  query_history : List String
  query_result : Option DataFrame
deriving DecidableEq

/-- Outcome of one press of a page button: the new session state, the
messages shown, the committed database state, and the driver events. -/
structure ButtonResult (σ : Type) where
  st : StSession
  msgs : List UiMsg
  committed : σ
  trace : List DbEvent
deriving DecidableEq

/-- `app.py` lines 180–190, the "▶️ Execute SQL" button of the Custom
SQL page: a blank (after `strip()`) query is rejected with a warning and
nothing reaches the database; otherwise `execute_sql_query` runs, and
only when the returned DataFrame is non-empty is the result stored and
the literal query appended to `query_history`. -/
def runExecuteSqlButton {σ : Type} (M : DBModel σ) (c : σ) (st : StSession)
    (sql_query : String) : ButtonResult σ :=
  if pyStrip sql_query = "" then
    ⟨st, [.warning "Please enter a SQL query."], c, []⟩
  else
    let r := execute_sql_query M c sql_query
    if r.df.empty then
      ⟨st, r.msgs ++ [.warning "Query returned no data."], r.committed, r.trace⟩
    else
      ⟨⟨st.query_history ++ [sql_query], some r.df⟩,
        r.msgs ++ [.success "✅ Query executed successfully!"], r.committed, r.trace⟩

/-- `app.py` line 128, the Explore Tables load handler: interpolates the
selected table name into a fixed SELECT with a LIMIT and delegates to
`execute_sql_query`. -/
def loadTableData {σ : Type} (M : DBModel σ) (c : σ) (table_name : String) :
    ExecResult σ :=
  execute_sql_query M c ("SELECT * FROM " ++ table_name ++ " LIMIT 1000")

/-- `app.py` line 105, the sidebar query-history display:
`st.session_state.query_history[-5:][::-1]` — the last five stored
entries, newest first.  Storage itself is not touched. -/
def sidebarHistory (history : List String) : List String :=
  (history.drop (history.length - 5)).reverse

end App

/-! ## `src/main.py`: the FastAPI variant -/

namespace Api

/-- FastAPI's `HTTPException`, the value-level failure of `main.py`. -/
structure HTTPException where
  status_code : Nat
  detail : String
deriving DecidableEq

/-- Python `str()` of a Starlette `HTTPException`:
`f"{status_code}: {detail}"`. -/
def HTTPException.toStr (e : HTTPException) : String :=
  toString e.status_code ++ ": " ++ e.detail

instance {ε α : Type} [DecidableEq ε] [DecidableEq α] : DecidableEq (Except ε α)
  | .error e, .error f =>
    if h : e = f then .isTrue (by rw [h]) else .isFalse (fun hh => h (by cases hh; rfl))
  | .error _, .ok _ => .isFalse (fun hh => Except.noConfusion hh)
  | .ok _, .error _ => .isFalse (fun hh => Except.noConfusion hh)
  | .ok x, .ok y =>
    if h : x = y then .isTrue (by rw [h]) else .isFalse (fun hh => h (by cases hh; rfl))

/-- Outcome of one call into the HTTP variant: either serialized records
(an HTTP 200 body) or an `HTTPException`, plus the committed database
state afterwards and the driver events performed. -/
structure ApiResult (σ : Type) where
  result : Except HTTPException (List (List (String × Value)))
  committed : σ
  trace : List DbEvent
deriving DecidableEq

/-- `main.py` lines 16–22, the helper `execute_sql_query`: inside
`with SessionLocal() as session:` the query string goes verbatim through
`pd.read_sql` and the rows are serialized with
`to_dict(orient="records")`; any exception is converted to
`HTTPException(400, str(e))`.  There is no commit on any path, so the
committed state is returned unchanged, and the session closes either
way. -/
def execute_sql_query {σ : Type} (M : DBModel σ) (c : σ) (query : String) :
    ApiResult σ :=
  match M.readSql c query with
  | .ok (df, _p) => ⟨.ok (toRecords df), c, [.acquire, .read query, .release]⟩
  | .error e => ⟨.error ⟨400, e⟩, c, [.acquire, .read query, .release]⟩

/-- The request body of `POST /data/execute_sql` (`class SQLQuery`). -/
structure SQLQuery where
  query : String
deriving DecidableEq

/-- `main.py` lines 28–34, the `POST /data/execute_sql` route: delegates
the body's `query` field verbatim to `execute_sql_query`; its own
`except Exception` also catches the helper's `HTTPException` and wraps
it once more as `HTTPException(400, f"Failed to execute SQL query:
{str(e)}")`. -/
def execute_sql {σ : Type} (M : DBModel σ) (c : σ) (body : SQLQuery) :
    ApiResult σ :=
  let r := execute_sql_query M c body.query
  match r.result with
  | .ok data => ⟨.ok data, r.committed, r.trace⟩
  | .error he =>
      ⟨.error ⟨400, "Failed to execute SQL query: " ++ he.toStr⟩, r.committed, r.trace⟩

/-- `main.py` lines 37–45, the `GET /data/{table_name}` route: builds
`"SELECT * FROM {table_name} LIMIT 1000"` by direct interpolation with
no validation of `table_name`, reads it via `pd.read_sql` inside a
session scope, and serializes the rows; any exception becomes
`HTTPException(404, f"Table `{table_name}` not found or error:
{str(e)}")`.  No commit on any path. -/
def get_table_data {σ : Type} (M : DBModel σ) (c : σ) (table_name : String) :
    ApiResult σ :=
  let query := "SELECT * FROM " ++ table_name ++ " LIMIT 1000"
  match M.readSql c query with
  | .ok (df, _p) => ⟨.ok (toRecords df), c, [.acquire, .read query, .release]⟩
  | .error e =>
      ⟨.error ⟨404, "Table `" ++ table_name ++ "` not found or error: " ++ e⟩,
        c, [.acquire, .read query, .release]⟩

end Api

/-! ## CSV export: `df.to_csv(index=False).encode("utf-8")`

`app.py` lines 133 and 197 export the current DataFrame with pandas
`to_csv(index=False)`: a header line with the column names, then one
record per row in order, fields comma-separated, a field being quoted
(with internal `"` doubled) exactly when it contains a comma, a quote,
or a line break (pandas csv.QUOTE_MINIMAL), records terminated by
newline.  The decoder below is a plain CSV scanner used to state the
round-trip property; the repository itself only encodes. -/

/-- A character that forces pandas to quote the field containing it. -/
def csvNeedsQuote (c : Char) : Bool :=
  c = ',' || c = '"' || c = '\n' || c = '\r'

/-- Double every `"` inside a quoted field, per the CSV format. -/
def escapeChars : List Char → List Char
  | [] => []
  | c :: cs => if c = '"' then '"' :: '"' :: escapeChars cs else c :: escapeChars cs

/-- One CSV field: quoted with escaping when needed, verbatim otherwise. -/
def encodeField (f : List Char) : List Char :=
  if f.any csvNeedsQuote then '"' :: (escapeChars f ++ ['"']) else f

/-- One CSV record: fields joined by commas. -/
def encodeRecord : List (List Char) → List Char
  | [] => []
  | [f] => encodeField f
  | f :: g :: fs => encodeField f ++ ',' :: encodeRecord (g :: fs)

/-- A CSV file: each record followed by a newline. -/
def encodeCSV : List (List (List Char)) → List Char
  | [] => []
  | r :: rs => encodeRecord r ++ '\n' :: encodeCSV rs

/-- The records pandas writes for a DataFrame with `index=False`: the
header (column names) followed by the rendered rows in order. -/
def DataFrame.csvRecords (df : DataFrame) : List (List (List Char)) :=
  (df.columns.map String.data) :: df.rows.map (fun r => r.map (fun v => (renderValue v).data))

/-- `df.to_csv(index=False)` of `app.py`. -/
def DataFrame.to_csv (df : DataFrame) : String :=
  String.mk (encodeCSV df.csvRecords)

/-- A CSV scanner: walks the characters with an in-quotes flag, the
field accumulated so far, and the record accumulated so far, and emits
the list of records.  Inside quotes, `""` is an escaped quote and a
single `"` closes the field; outside quotes, `"` opens a quoted field,
`,` ends the field and `\n` ends the record. -/
def csvScan : List Char → Bool → List Char → List (List Char) → List (List (List Char))
  | [], _, f, r => if f.isEmpty && r.isEmpty then [] else [r ++ [f]]
  | '"' :: '"' :: cs, true, f, r => csvScan cs true (f ++ ['"']) r
  | '"' :: cs, true, f, r => csvScan cs false f r
  | c :: cs, true, f, r => csvScan cs true (f ++ [c]) r
  | '"' :: cs, false, f, r => csvScan cs true f r
  | ',' :: cs, false, f, r => csvScan cs false [] (r ++ [f])
  | '\n' :: cs, false, f, r => (r ++ [f]) :: csvScan cs false [] []
  | c :: cs, false, f, r => csvScan cs false (f ++ [c]) r
termination_by l _ _ _ => l.length
decreasing_by all_goals simp_arith

/-- Decode a CSV text into its records of string fields. -/
def decodeCSV (s : String) : List (List String) :=
  (csvScan s.data false [] []).map (fun r => r.map String.mk)

/-! ## Repeated invocation (for the resource claims) -/

/-- The concatenated driver trace of `n` consecutive calls of the
Streamlit `execute_sql_query` on the same query, threading the
committed state. -/
def App.iterTrace {σ : Type} (M : DBModel σ) (q : String) : Nat → σ → List DbEvent
  | 0, _ => []
  | n + 1, c =>
    let r := App.execute_sql_query M c q
    r.trace ++ App.iterTrace M q n r.committed

/-- The concatenated driver trace of `n` consecutive calls of the
HTTP `POST /data/execute_sql` route on the same body. -/
def Api.iterTrace {σ : Type} (M : DBModel σ) (q : String) : Nat → σ → List DbEvent
  | 0, _ => []
  | n + 1, c =>
    let r := Api.execute_sql (σ := σ) M c ⟨q⟩
    r.trace ++ Api.iterTrace M q n r.committed

/-! ## Concrete driver instances used by witnesses and counterexamples -/

/-- The two-row demo table of the spec's round-trip example. -/
def demoTable : DataFrame :=
  ⟨["a", "b"], [[.int 1, .str "x"], [.int 2, .str "y"]]⟩

/-- A demo driver over committed state `Nat` (a write counter): a few
known SELECTs return rows, everything else errors; `execStmt` succeeds
on everything except a poisoned statement. -/
def demoModel : DBModel Nat where
  readSql := fun s q =>
    if q = "SELECT * FROM flights LIMIT 1000" || q = "SELECT 1" then
      .ok (demoTable, s)
    else if q = "SELECT none" then
      .ok (⟨["a"], []⟩, s)
    else
      .error ("relation does not exist: " ++ q)
  execStmt := fun s q =>
    if q = "DROP TABLE nope" then .error "cannot drop" else .ok (s + 1)

/-! ## Helper lemmas: single steps of the CSV scanner -/

theorem csvScan_quote_false (cs : List Char) (f : List Char) (r : List (List Char)) :
    csvScan ('"' :: cs) false f r = csvScan cs true f r := by
  simp [csvScan]

theorem csvScan_comma (cs : List Char) (f : List Char) (r : List (List Char)) :
    csvScan (',' :: cs) false f r = csvScan cs false [] (r ++ [f]) := by
  simp [csvScan]

theorem csvScan_newline (cs : List Char) (f : List Char) (r : List (List Char)) :
    csvScan ('\n' :: cs) false f r = (r ++ [f]) :: csvScan cs false [] [] := by
  simp [csvScan]

theorem csvScan_other_false (c : Char) (cs : List Char) (f : List Char) (r : List (List Char))
    (h1 : ¬ c = '"') (h2 : ¬ c = ',') (h3 : ¬ c = '\n') :
    csvScan (c :: cs) false f r = csvScan cs false (f ++ [c]) r := by
  simp [csvScan, h1, h2, h3]

theorem csvScan_qq_true (cs : List Char) (f : List Char) (r : List (List Char)) :
    csvScan ('"' :: '"' :: cs) true f r = csvScan cs true (f ++ ['"']) r := by
  simp [csvScan]

theorem csvScan_q_true (c : Char) (cs : List Char) (f : List Char) (r : List (List Char))
    (h : ¬ c = '"') :
    csvScan ('"' :: c :: cs) true f r = csvScan (c :: cs) false f r := by
  simp [csvScan, h]

theorem csvScan_other_true (c : Char) (cs : List Char) (f : List Char) (r : List (List Char))
    (h : ¬ c = '"') :
    csvScan (c :: cs) true f r = csvScan cs true (f ++ [c]) r := by
  simp [csvScan, h]

/-! ## Helper lemmas: the scanner inverts the encoder -/

/-- Scanning an unquoted (clean) field accumulates it verbatim. -/
theorem csvScan_clean (xs : List Char) (hxs : ∀ c ∈ xs, csvNeedsQuote c = false) :
    ∀ (cs f : List Char) (r : List (List Char)),
      csvScan (xs ++ cs) false f r = csvScan cs false (f ++ xs) r := by
  induction xs with
  | nil => intro cs f r; simp
  | cons x xs ih =>
    intro cs f r
    have hx : csvNeedsQuote x = false := hxs x (List.mem_cons_self x xs)
    simp only [csvNeedsQuote, Bool.or_eq_false_iff, decide_eq_false_iff_not] at hx
    obtain ⟨⟨⟨h2, h1⟩, h3⟩, _⟩ := hx
    rw [List.cons_append, csvScan_other_false x (xs ++ cs) f r h1 h2 h3,
      ih (fun c hc => hxs c (List.mem_cons_of_mem x hc))]
    simp

/-- Scanning an escaped field body up to its closing quote recovers the
original characters, when a separator follows the closing quote. -/
theorem csvScan_escape (xs : List Char) :
    ∀ (c : Char) (cs f : List Char) (r : List (List Char)), (c = ',' ∨ c = '\n') →
      csvScan (escapeChars xs ++ '"' :: c :: cs) true f r = csvScan (c :: cs) false (f ++ xs) r := by
  induction xs with
  | nil =>
    intro c cs f r hsep
    have hc : ¬ c = '"' := by rcases hsep with h | h <;> subst h <;> decide
    simp [escapeChars, csvScan_q_true c cs f r hc]
  | cons x xs ih =>
    intro c cs f r hsep
    by_cases hx : x = '"'
    · subst hx
      rw [show escapeChars ('"' :: xs) = '"' :: '"' :: escapeChars xs from rfl]
      rw [List.cons_append, List.cons_append, csvScan_qq_true, ih c cs (f ++ ['"']) r hsep]
      simp
    · rw [show escapeChars (x :: xs) = x :: escapeChars xs from by simp [escapeChars, hx]]
      rw [List.cons_append, csvScan_other_true x _ f r hx, ih c cs (f ++ [x]) r hsep]
      simp

/-- Scanning one encoded field (with a separator following) yields the
original field. -/
theorem csvScan_encodeField (x : List Char) (c : Char) (cs : List Char) (r : List (List Char))
    (hsep : c = ',' ∨ c = '\n') :
    csvScan (encodeField x ++ c :: cs) false [] r = csvScan (c :: cs) false x r := by
  by_cases hq : x.any csvNeedsQuote
  · rw [show encodeField x = '"' :: (escapeChars x ++ ['"']) from by simp [encodeField, hq]]
    rw [List.cons_append, List.append_assoc]
    rw [show ['"'] ++ c :: cs = '"' :: c :: cs from rfl]
    rw [csvScan_quote_false, csvScan_escape x c cs [] r hsep]
    simp
  · rw [show encodeField x = x from by simp [encodeField, hq]]
    have hclean : ∀ ch ∈ x, csvNeedsQuote ch = false := by
      intro ch hch
      by_contra hne
      exact hq (List.any_eq_true.mpr ⟨ch, hch, by simpa using hne⟩)
    rw [csvScan_clean x hclean (c :: cs) [] r]
    simp

/-- Scanning one encoded record (newline-terminated) yields the original
record appended to the accumulator, then scans the rest. -/
theorem csvScan_encodeRecord :
    ∀ (rc : List (List Char)), rc ≠ [] →
    ∀ (cs : List Char) (r : List (List Char)),
      csvScan (encodeRecord rc ++ '\n' :: cs) false [] r = (r ++ rc) :: csvScan cs false [] [] := by
  intro rc
  induction rc with
  | nil => intro h; exact absurd rfl h
  | cons x rest ih =>
    intro _ cs r
    cases rest with
    | nil =>
      rw [show encodeRecord [x] = encodeField x from rfl,
        csvScan_encodeField x '\n' cs r (Or.inr rfl), csvScan_newline]
    | cons y rest2 =>
      rw [show encodeRecord (x :: y :: rest2) = encodeField x ++ ',' :: encodeRecord (y :: rest2)
        from rfl]
      rw [List.append_assoc, List.cons_append,
        csvScan_encodeField x ',' (encodeRecord (y :: rest2) ++ '\n' :: cs) r (Or.inl rfl),
        csvScan_comma, ih (by simp) cs (r ++ [x])]
      simp

/-- Scanning a whole encoded CSV file yields exactly the original
records, provided each record has at least one field. -/
theorem csvScan_encodeCSV :
    ∀ (recs : List (List (List Char))), (∀ rc ∈ recs, rc ≠ []) →
      csvScan (encodeCSV recs) false [] [] = recs := by
  intro recs
  induction recs with
  | nil => intro _; simp [encodeCSV, csvScan]
  | cons rc rest ih =>
    intro h
    rw [show encodeCSV (rc :: rest) = encodeRecord rc ++ '\n' :: encodeCSV rest from rfl,
      csvScan_encodeRecord rc (h rc (List.mem_cons_self rc rest)) (encodeCSV rest) [],
      ih (fun q hq => h q (List.mem_cons_of_mem rc hq))]
    simp

/-! ## Helper lemmas: traces and session balance -/

theorem sessionBalanced_append {t1 t2 : List DbEvent}
    (h1 : sessionBalanced t1) (h2 : sessionBalanced t2) : sessionBalanced (t1 ++ t2) := by
  unfold sessionBalanced at *
  simp only [List.filter_append, List.length_append, h1, h2]

/-- Every call of the Streamlit `execute_sql_query` releases the one
session it acquires, on the read, write and both failure paths. -/
theorem app_trace_balanced {σ : Type} (M : DBModel σ) (c : σ) (q : String) :
    sessionBalanced (App.execute_sql_query M c q).trace := by
  unfold App.execute_sql_query
  by_cases hs : isSelectQuery q = true
  · cases hr : M.readSql c q with
    | ok v =>
      obtain ⟨df, p⟩ := v
      simp [hs, hr, sessionBalanced, List.filter, DbEvent.isAcquire, DbEvent.isRelease]
    | error e =>
      simp [hs, hr, sessionBalanced, List.filter, DbEvent.isAcquire, DbEvent.isRelease]
  · cases he : M.execStmt c q with
    | ok p =>
      simp [hs, he, sessionBalanced, List.filter, DbEvent.isAcquire, DbEvent.isRelease,
        DbEvent.isCommit]
    | error e =>
      simp [hs, he, sessionBalanced, List.filter, DbEvent.isAcquire, DbEvent.isRelease]

/-- The `POST /data/execute_sql` route acquires one session, sends the
body's query verbatim, and releases the session, whatever the driver
does. -/
theorem api_execute_sql_trace {σ : Type} (M : DBModel σ) (c : σ) (body : Api.SQLQuery) :
    (Api.execute_sql M c body).trace = [.acquire, .read body.query, .release] := by
  unfold Api.execute_sql Api.execute_sql_query
  cases h : M.readSql c body.query with
  | ok v => obtain ⟨df, p⟩ := v; simp [h]
  | error e => simp [h]

/-- The `POST /data/execute_sql` route never changes the committed
database state. -/
theorem api_execute_sql_committed {σ : Type} (M : DBModel σ) (c : σ) (body : Api.SQLQuery) :
    (Api.execute_sql M c body).committed = c := by
  unfold Api.execute_sql Api.execute_sql_query
  cases h : M.readSql c body.query with
  | ok v => obtain ⟨df, p⟩ := v; simp [h]
  | error e => simp [h]

/-- The `GET /data/{table_name}` route acquires one session, reads the
interpolated query, and releases the session, whatever the driver
does. -/
theorem api_get_table_trace {σ : Type} (M : DBModel σ) (c : σ) (t : String) :
    (Api.get_table_data M c t).trace
      = [.acquire, .read ("SELECT * FROM " ++ t ++ " LIMIT 1000"), .release] := by
  unfold Api.get_table_data
  cases h : M.readSql c ("SELECT * FROM " ++ t ++ " LIMIT 1000") with
  | ok v => obtain ⟨df, p⟩ := v; simp [h]
  | error e => simp [h]

/-- The `GET /data/{table_name}` route never changes the committed
database state. -/
theorem api_get_table_committed {σ : Type} (M : DBModel σ) (c : σ) (t : String) :
    (Api.get_table_data M c t).committed = c := by
  unfold Api.get_table_data
  cases h : M.readSql c ("SELECT * FROM " ++ t ++ " LIMIT 1000") with
  | ok v => obtain ⟨df, p⟩ := v; simp [h]
  | error e => simp [h]

theorem app_iterTrace_balanced {σ : Type} (M : DBModel σ) (q : String) :
    ∀ (n : Nat) (c : σ), sessionBalanced (App.iterTrace M q n c) := by
  intro n
  induction n with
  | zero => intro c; simp [App.iterTrace, sessionBalanced]
  | succ k ih =>
    intro c
    exact sessionBalanced_append (app_trace_balanced M c q) (ih _)

theorem api_iterTrace_balanced {σ : Type} (M : DBModel σ) (q : String) :
    ∀ (n : Nat) (c : σ), sessionBalanced (Api.iterTrace M q n c) := by
  intro n
  induction n with
  | zero => intro c; simp [Api.iterTrace, sessionBalanced]
  | succ k ih =>
    intro c
    apply sessionBalanced_append _ (ih _)
    rw [api_execute_sql_trace]
    simp [sessionBalanced, List.filter, DbEvent.isAcquire, DbEvent.isRelease]

/-! ## Claims -/

/-- C1: `app.py`'s `execute_sql_query` dispatches on
`query.strip().lower().startswith("select")`: a query whose stripped
text starts with "select" (case-insensitively) is run through
`pd.read_sql` and all its rows are returned as the ResultSet, while any
other statement is executed, the transaction is committed, and an empty
DataFrame is returned together with a success (not an error) message. -/
theorem spec_c1 {σ : Type} (M : DBModel σ) (c : σ) (q1 q2 : String)
    (df : DataFrame) (p1 p2 : σ)
    (hsel : isSelectQuery q1 = true)
    (hread : M.readSql c q1 = .ok (df, p1))
    (hns : isSelectQuery q2 = false)
    (hexec : M.execStmt c q2 = .ok p2) :
    App.execute_sql_query M c q1 = ⟨df, [], c, [.acquire, .read q1, .release]⟩
    ∧ App.execute_sql_query M c q2
      = ⟨emptyDataFrame, [.success App.successMsg], p2,
          [.acquire, .exec q2, .commit, .release]⟩ := by
  constructor
  · simp [App.execute_sql_query, hsel, hread]
  · simp [App.execute_sql_query, hns, hexec]

/-- Witness for C1: under the demo driver, `SELECT 1` returns the demo
table's rows, and the spec's example `DELETE FROM baggage WHERE
baggage_id = -1` commits and returns an empty DataFrame with the
success message. -/
theorem spec_c1_witness :
    (isSelectQuery "SELECT 1" = true
      ∧ demoModel.readSql 0 "SELECT 1" = .ok (demoTable, 0)
      ∧ isSelectQuery "DELETE FROM baggage WHERE baggage_id = -1" = false
      ∧ demoModel.execStmt 0 "DELETE FROM baggage WHERE baggage_id = -1" = .ok 1)
    ∧ (App.execute_sql_query demoModel 0 "SELECT 1"
        = ⟨demoTable, [], 0, [.acquire, .read "SELECT 1", .release]⟩
      ∧ App.execute_sql_query demoModel 0 "DELETE FROM baggage WHERE baggage_id = -1"
        = ⟨emptyDataFrame, [.success App.successMsg], 1,
            [.acquire, .exec "DELETE FROM baggage WHERE baggage_id = -1", .commit,
              .release]⟩) :=
  ⟨⟨by decide, by decide, by decide, by decide⟩,
    spec_c1 demoModel 0 "SELECT 1" "DELETE FROM baggage WHERE baggage_id = -1"
      demoTable 0 1 (by decide) (by decide) (by decide) (by decide)⟩

/-- C2: in both variants a driver error is caught at the execute
boundary and turned into a value-level failure carrying the raw driver
text, on every code path a database-level error can arise from: in
`app.py` a failing read (`pd.read_sql`) and a failing write or DDL
statement (`session.execute`, e.g. a constraint violation) both end in
`st.error` with `SQL Execution Error: {e}` and no commit; in `main.py`,
where every query whatsoever goes through the single `pd.read_sql`
path, any failure becomes `HTTPException(400, str(e))`.  Each failure
outcome is distinct from the outcome of a successful zero-row query. -/
theorem spec_c2 {σ : Type} (M : DBModel σ) (c : σ) (qf qw qh qe e ew eh : String)
    (df : DataFrame) (p : σ)
    (hself : isSelectQuery qf = true)
    (hfail : M.readSql c qf = .error e)
    (hnsw : isSelectQuery qw = false)
    (hfailw : M.execStmt c qw = .error ew)
    (hfailh : M.readSql c qh = .error eh)
    (hsele : isSelectQuery qe = true)
    (hok : M.readSql c qe = .ok (df, p))
    (hzero : df.rows = []) :
    ((App.execute_sql_query M c qf).msgs = [.error (App.sqlErrorMsg e)]
      ∧ App.execute_sql_query M c qw
          = ⟨emptyDataFrame, [.error (App.sqlErrorMsg ew)], c, [.acquire, .exec qw, .release]⟩
      ∧ (App.execute_sql_query M c qe).msgs = []
      ∧ (App.execute_sql_query M c qf).msgs ≠ (App.execute_sql_query M c qe).msgs
      ∧ (App.execute_sql_query M c qw).msgs ≠ (App.execute_sql_query M c qe).msgs)
    ∧ ((Api.execute_sql_query M c qh).result = .error ⟨400, eh⟩
      ∧ (Api.execute_sql_query M c qe).result = .ok []
      ∧ (Api.execute_sql_query M c qh).result ≠ (Api.execute_sql_query M c qe).result) := by
  have ha1 : (App.execute_sql_query M c qf).msgs = [.error (App.sqlErrorMsg e)] := by
    simp [App.execute_sql_query, hself, hfail]
  have ha2 : (App.execute_sql_query M c qe).msgs = [] := by
    simp [App.execute_sql_query, hsele, hok]
  have haw : App.execute_sql_query M c qw
      = ⟨emptyDataFrame, [.error (App.sqlErrorMsg ew)], c, [.acquire, .exec qw, .release]⟩ := by
    simp [App.execute_sql_query, hnsw, hfailw]
  have hb1 : (Api.execute_sql_query M c qh).result = .error ⟨400, eh⟩ := by
    simp [Api.execute_sql_query, hfailh]
  have hb2 : (Api.execute_sql_query M c qe).result = .ok [] := by
    simp [Api.execute_sql_query, hok, toRecords, hzero]
  refine ⟨⟨ha1, haw, ha2, ?_, ?_⟩, hb1, hb2, ?_⟩
  · rw [ha1, ha2]; simp
  · rw [haw, ha2]; simp
  · rw [hb1, hb2]; simp

/-- Witness for C2: under the demo driver the read `select bogus`
fails, the write `DROP TABLE nope` fails on `session.execute` in the
Streamlit variant and on `pd.read_sql` in the HTTP variant (where even
non-select statements take the read path), and `SELECT none` succeeds
with zero rows; each failure outcome carries the raw driver text and
is distinct from the zero-row success. -/
theorem spec_c2_witness :
    (isSelectQuery "select bogus" = true
      ∧ demoModel.readSql 0 "select bogus" = .error "relation does not exist: select bogus"
      ∧ isSelectQuery "DROP TABLE nope" = false
      ∧ demoModel.execStmt 0 "DROP TABLE nope" = .error "cannot drop"
      ∧ demoModel.readSql 0 "DROP TABLE nope"
          = .error "relation does not exist: DROP TABLE nope"
      ∧ isSelectQuery "SELECT none" = true
      ∧ demoModel.readSql 0 "SELECT none" = .ok (⟨["a"], []⟩, 0)
      ∧ (⟨["a"], []⟩ : DataFrame).rows = [])
    ∧ (((App.execute_sql_query demoModel 0 "select bogus").msgs
          = [.error (App.sqlErrorMsg "relation does not exist: select bogus")]
        ∧ App.execute_sql_query demoModel 0 "DROP TABLE nope"
            = ⟨emptyDataFrame, [.error (App.sqlErrorMsg "cannot drop")], 0,
                [.acquire, .exec "DROP TABLE nope", .release]⟩
        ∧ (App.execute_sql_query demoModel 0 "SELECT none").msgs = []
        ∧ (App.execute_sql_query demoModel 0 "select bogus").msgs
            ≠ (App.execute_sql_query demoModel 0 "SELECT none").msgs
        ∧ (App.execute_sql_query demoModel 0 "DROP TABLE nope").msgs
            ≠ (App.execute_sql_query demoModel 0 "SELECT none").msgs)
      ∧ ((Api.execute_sql_query demoModel 0 "DROP TABLE nope").result
          = .error ⟨400, "relation does not exist: DROP TABLE nope"⟩
        ∧ (Api.execute_sql_query demoModel 0 "SELECT none").result = .ok []
        ∧ (Api.execute_sql_query demoModel 0 "DROP TABLE nope").result
            ≠ (Api.execute_sql_query demoModel 0 "SELECT none").result)) :=
  ⟨⟨by decide, by decide, by decide, by decide, by decide, by decide, by decide, by decide⟩,
    spec_c2 demoModel 0 "select bogus" "DROP TABLE nope" "DROP TABLE nope" "SELECT none"
      "relation does not exist: select bogus" "cannot drop"
      "relation does not exist: DROP TABLE nope" ⟨["a"], []⟩ 0
      (by decide) (by decide) (by decide) (by decide) (by decide) (by decide) (by decide)
      (by decide)⟩

/-- C3 counterexample: the claim fails on the HTTP path.  The body
`{"query": "   "}` is whitespace-only (`strip()` yields the empty
string), yet `POST /data/execute_sql` invokes the executor and the
driver receives the whitespace-only statement: `main.py` lines 28–34
contain no caller-side guard. -/
theorem spec_c3_counterexample :
    pyStrip "   " = ""
    ∧ DbEvent.read "   " ∈ (Api.execute_sql demoModel 0 ⟨"   "⟩).trace := by
  decide

/-- C3 as amended: only the Streamlit Custom SQL path guards against
empty or whitespace-only input — there the button handler warns and the
executor and database are never reached — while the HTTP
`POST /data/execute_sql` path has no such guard and always forwards the
body's query, whatever it is, to the driver verbatim. -/
theorem spec_c3_amended {σ : Type} (M : DBModel σ) (c : σ) (st : App.StSession)
    (q : String) (body : Api.SQLQuery)
    (hq : pyStrip q = "") :
    App.runExecuteSqlButton M c st q
      = ⟨st, [.warning "Please enter a SQL query."], c, []⟩
    ∧ (Api.execute_sql M c body).trace = [.acquire, .read body.query, .release] := by
  refine ⟨?_, api_execute_sql_trace M c body⟩
  simp [App.runExecuteSqlButton, hq]

/-- Witness for C3 (amended): a whitespace-only query in the Streamlit
page produces only the warning and an empty driver trace, while the
same whitespace-only body reaches the driver over HTTP. -/
theorem spec_c3_amended_witness :
    pyStrip " \t " = ""
    ∧ (App.runExecuteSqlButton demoModel 0 ⟨[], none⟩ " \t "
        = ⟨⟨[], none⟩, [.warning "Please enter a SQL query."], 0, []⟩
      ∧ (Api.execute_sql demoModel 0 ⟨"   "⟩).trace
          = [.acquire, .read "   ", .release]) :=
  ⟨by decide,
    spec_c3_amended demoModel 0 ⟨[], none⟩ " \t " ⟨"   "⟩ (by decide)⟩

/-- C4: `GET /data/{table_name}` sends exactly
`"SELECT * FROM " ++ t ++ " LIMIT 1000"` to the driver with no
validation or quoting of `t`; on success it returns the rows serialized
as records, and on any driver error a 404 `HTTPException` whose detail
embeds the driver's message. -/
theorem spec_c4 {σ : Type} (M : DBModel σ) (c : σ) (t u : String)
    (df : DataFrame) (p : σ) (e : String)
    (hok : M.readSql c ("SELECT * FROM " ++ t ++ " LIMIT 1000") = .ok (df, p))
    (herr : M.readSql c ("SELECT * FROM " ++ u ++ " LIMIT 1000") = .error e) :
    Api.get_table_data M c t
      = ⟨.ok (toRecords df), c,
          [.acquire, .read ("SELECT * FROM " ++ t ++ " LIMIT 1000"), .release]⟩
    ∧ Api.get_table_data M c u
      = ⟨.error ⟨404, "Table `" ++ u ++ "` not found or error: " ++ e⟩, c,
          [.acquire, .read ("SELECT * FROM " ++ u ++ " LIMIT 1000"), .release]⟩ := by
  constructor
  · simp [Api.get_table_data, hok]
  · simp [Api.get_table_data, herr]

/-- Witness for C4: the demo driver knows `flights` and rejects `nope`;
the route returns the serialized rows for the one and a 404 carrying
the driver text for the other. -/
theorem spec_c4_witness :
    (demoModel.readSql 0 ("SELECT * FROM " ++ "flights" ++ " LIMIT 1000")
        = .ok (demoTable, 0)
      ∧ demoModel.readSql 0 ("SELECT * FROM " ++ "nope" ++ " LIMIT 1000")
        = .error "relation does not exist: SELECT * FROM nope LIMIT 1000")
    ∧ (Api.get_table_data demoModel 0 "flights"
        = ⟨.ok (toRecords demoTable), 0,
            [.acquire, .read ("SELECT * FROM " ++ "flights" ++ " LIMIT 1000"), .release]⟩
      ∧ Api.get_table_data demoModel 0 "nope"
        = ⟨.error ⟨404, "Table `" ++ "nope" ++ "` not found or error: "
              ++ "relation does not exist: SELECT * FROM nope LIMIT 1000"⟩, 0,
            [.acquire, .read ("SELECT * FROM " ++ "nope" ++ " LIMIT 1000"), .release]⟩) :=
  ⟨⟨by decide, by decide⟩,
    spec_c4 demoModel 0 "flights" "nope" demoTable 0
      "relation does not exist: SELECT * FROM nope LIMIT 1000" (by decide) (by decide)⟩

/-- C5: `POST /data/execute_sql` forwards the body's query string
verbatim to the executor; on success it returns the rows serialized as
records (an HTTP 200 body), and on failure a 400 `HTTPException` whose
detail embeds the driver's message (wrapped twice, because the route's
own `except` also catches the helper's `HTTPException`). -/
theorem spec_c5 {σ : Type} (M : DBModel σ) (c : σ) (q1 q2 e : String)
    (df : DataFrame) (p : σ)
    (hok : M.readSql c q1 = .ok (df, p))
    (herr : M.readSql c q2 = .error e) :
    Api.execute_sql M c ⟨q1⟩
      = ⟨.ok (toRecords df), c, [.acquire, .read q1, .release]⟩
    ∧ Api.execute_sql M c ⟨q2⟩
      = ⟨.error ⟨400, "Failed to execute SQL query: 400: " ++ e⟩, c,
          [.acquire, .read q2, .release]⟩ := by
  constructor
  · simp [Api.execute_sql, Api.execute_sql_query, hok]
  · simp [Api.execute_sql, Api.execute_sql_query, herr, Api.HTTPException.toStr]
    rfl

/-- Witness for C5: a known SELECT body yields the serialized demo
rows; a bogus body yields the 400 whose detail ends with the driver's
message. -/
theorem spec_c5_witness :
    (demoModel.readSql 0 "SELECT 1" = .ok (demoTable, 0)
      ∧ demoModel.readSql 0 "bogus" = .error "relation does not exist: bogus")
    ∧ (Api.execute_sql demoModel 0 ⟨"SELECT 1"⟩
        = ⟨.ok (toRecords demoTable), 0, [.acquire, .read "SELECT 1", .release]⟩
      ∧ Api.execute_sql demoModel 0 ⟨"bogus"⟩
        = ⟨.error ⟨400, "Failed to execute SQL query: 400: "
              ++ "relation does not exist: bogus"⟩, 0,
            [.acquire, .read "bogus", .release]⟩) :=
  ⟨⟨by decide, by decide⟩,
    spec_c5 demoModel 0 "SELECT 1" "bogus" "relation does not exist: bogus"
      demoTable 0 (by decide) (by decide)⟩

/-- C6: every modelled entry point releases the session it acquires on
every exit path (read, write, and both failure paths), and the
concatenated trace of any number `n` of consecutive calls — failing or
not — is session-balanced: no acquired session is left unreleased. -/
theorem spec_c6 {σ : Type} (M : DBModel σ) (c : σ) (q t : String) (n : Nat) :
    sessionBalanced (App.execute_sql_query M c q).trace
    ∧ sessionBalanced (Api.execute_sql M c ⟨q⟩).trace
    ∧ sessionBalanced (Api.get_table_data M c t).trace
    ∧ sessionBalanced (App.iterTrace M q n c)
    ∧ sessionBalanced (Api.iterTrace M q n c) := by
  refine ⟨app_trace_balanced M c q, ?_, ?_,
    app_iterTrace_balanced M q n c, api_iterTrace_balanced M q n c⟩
  · rw [api_execute_sql_trace]
    simp [sessionBalanced, List.filter, DbEvent.isAcquire, DbEvent.isRelease]
  · rw [api_get_table_trace]
    simp [sessionBalanced, List.filter, DbEvent.isAcquire, DbEvent.isRelease]

/-- C7: on a fixed committed state, `GET /data/flights` returns exactly
the record serialization of the DataFrame that the Streamlit Explore
Tables handler obtains from its local
`execute_sql_query("SELECT * FROM flights LIMIT 1000")`: the two paths
issue the same query and return the same row set. -/
theorem spec_c7 {σ : Type} (M : DBModel σ) (c : σ) (df : DataFrame) (p : σ)
    (h : M.readSql c "SELECT * FROM flights LIMIT 1000" = .ok (df, p)) :
    (App.loadTableData M c "flights").df = df
    ∧ (Api.get_table_data M c "flights").result
        = .ok (toRecords (App.loadTableData M c "flights").df)
    ∧ (App.loadTableData M c "flights").trace = (Api.get_table_data M c "flights").trace := by
  have hsel : isSelectQuery "SELECT * FROM flights LIMIT 1000" = true := by decide
  have hq : ("SELECT * FROM " ++ "flights" ++ " LIMIT 1000")
      = "SELECT * FROM flights LIMIT 1000" := rfl
  have hload : App.loadTableData M c "flights"
      = ⟨df, [], c, [.acquire, .read "SELECT * FROM flights LIMIT 1000", .release]⟩ := by
    unfold App.loadTableData
    rw [hq]
    simp [App.execute_sql_query, hsel, h]
  have hget : Api.get_table_data M c "flights"
      = ⟨.ok (toRecords df), c,
          [.acquire, .read ("SELECT * FROM " ++ "flights" ++ " LIMIT 1000"), .release]⟩ := by
    simp [Api.get_table_data, h]
  rw [hload, hget]
  exact ⟨rfl, rfl, rfl⟩

/-- Witness for C7: under the demo driver both paths return the demo
table's rows for the flights query. -/
theorem spec_c7_witness :
    demoModel.readSql 0 "SELECT * FROM flights LIMIT 1000" = .ok (demoTable, 0)
    ∧ ((App.loadTableData demoModel 0 "flights").df = demoTable
      ∧ (Api.get_table_data demoModel 0 "flights").result
          = .ok (toRecords (App.loadTableData demoModel 0 "flights").df)
      ∧ (App.loadTableData demoModel 0 "flights").trace
          = (Api.get_table_data demoModel 0 "flights").trace) :=
  ⟨by decide, spec_c7 demoModel 0 demoTable 0 (by decide)⟩

/-- C8: for every DataFrame with at least one column and no degenerate
(zero-field) row, the pandas CSV export (`to_csv(index=False)`) is the
header line with the column names in order followed by one record per
row in the original order, and a CSV decode recovers exactly the column
names and the printed cell values; at the spec's example this is
`a,b` then `1,x` then `2,y`. -/
theorem spec_c8 (df : DataFrame) (h1 : df.columns ≠ [])
    (h2 : ∀ row ∈ df.rows, row ≠ []) :
    decodeCSV df.to_csv = df.columns :: df.rows.map (fun row => row.map renderValue) := by
  have hmk : ∀ s : String, String.mk s.data = s := fun _ => rfl
  unfold decodeCSV DataFrame.to_csv
  rw [show (String.mk (encodeCSV df.csvRecords)).data = encodeCSV df.csvRecords from rfl]
  rw [csvScan_encodeCSV df.csvRecords ?nonnil]
  case nonnil =>
    intro rc hrc
    simp only [DataFrame.csvRecords, List.mem_cons, List.mem_map] at hrc
    rcases hrc with h | ⟨row, hrow, heq⟩
    · subst h; simpa using h1
    · subst heq; simpa using h2 row hrow
  · have hcomp : (String.mk ∘ String.data) = id := funext hmk
    simp [DataFrame.csvRecords, List.map_map, hcomp]

/-- Witness for C8: the spec's example table encodes to
`"a,b\n1,x\n2,y\n"` and decodes back to the header and the two rows in
order. -/
theorem spec_c8_witness :
    (demoTable.to_csv = "a,b\n1,x\n2,y\n"
      ∧ demoTable.columns ≠ []
      ∧ (∀ row ∈ demoTable.rows, row ≠ []))
    ∧ decodeCSV demoTable.to_csv = [["a", "b"], ["1", "x"], ["2", "y"]] :=
  ⟨⟨by decide, by decide, by decide⟩,
    spec_c8 demoTable (by decide) (by decide)⟩

/-- C9 counterexample: a query executed from the Custom SQL page is not
always appended to the history.  Under a driver for which `SELECT none`
succeeds with zero rows, pressing the button executes the query (the
driver receives it) yet `query_history` stays empty, because `app.py`
appends only inside `if not df.empty`. -/
theorem spec_c9_counterexample :
    pyStrip "SELECT none" ≠ ""
    ∧ DbEvent.read "SELECT none"
        ∈ (App.runExecuteSqlButton demoModel 0 ⟨[], none⟩ "SELECT none").trace
    ∧ (App.runExecuteSqlButton demoModel 0 ⟨[], none⟩ "SELECT none").st.query_history
        = [] := by
  decide

/-- C9 as amended: a query executed from the Custom SQL page is
appended to the in-memory history exactly when its result DataFrame is
non-empty (failures, zero-row results and write statements all return
an empty DataFrame and are not recorded); the append keeps the prior
history as a prefix (no deduplication, storage never truncated), and
the sidebar display is the last five stored entries, newest first,
hence never more than five. -/
theorem spec_c9_amended {σ : Type} (M : DBModel σ) (c : σ) (st : App.StSession)
    (q : String) (hq : ¬ pyStrip q = "") :
    ((App.runExecuteSqlButton M c st q).st.query_history
      = if (App.execute_sql_query M c q).df.empty = true
        then st.query_history
        else st.query_history ++ [q])
    ∧ ((App.runExecuteSqlButton M c st q).st.query_history = st.query_history
        ∨ (App.runExecuteSqlButton M c st q).st.query_history = st.query_history ++ [q])
    ∧ App.sidebarHistory (App.runExecuteSqlButton M c st q).st.query_history
      = ((App.runExecuteSqlButton M c st q).st.query_history.drop
          ((App.runExecuteSqlButton M c st q).st.query_history.length - 5)).reverse
    ∧ (App.sidebarHistory (App.runExecuteSqlButton M c st q).st.query_history).length
        ≤ 5 := by
  have hmain : (App.runExecuteSqlButton M c st q).st.query_history
      = if (App.execute_sql_query M c q).df.empty = true
        then st.query_history
        else st.query_history ++ [q] := by
    unfold App.runExecuteSqlButton
    by_cases he : (App.execute_sql_query M c q).df.empty = true <;> simp [hq, he]
  refine ⟨hmain, ?_, rfl, ?_⟩
  · rw [hmain]
    by_cases he : (App.execute_sql_query M c q).df.empty = true <;> simp [he]
  · unfold App.sidebarHistory
    simp only [List.length_reverse, List.length_drop]
    omega

/-- Witness for C9 (amended): a non-blank `SELECT 1` with a non-empty
result appends to the existing history, and the display invariants
hold. -/
theorem spec_c9_amended_witness :
    (¬ pyStrip "SELECT 1" = "")
    ∧ (((App.runExecuteSqlButton demoModel 0 ⟨["q0"], none⟩ "SELECT 1").st.query_history
        = if (App.execute_sql_query demoModel 0 "SELECT 1").df.empty = true
          then ["q0"]
          else ["q0"] ++ ["SELECT 1"])
      ∧ ((App.runExecuteSqlButton demoModel 0 ⟨["q0"], none⟩ "SELECT 1").st.query_history
            = ["q0"]
          ∨ (App.runExecuteSqlButton demoModel 0 ⟨["q0"], none⟩ "SELECT 1").st.query_history
            = ["q0"] ++ ["SELECT 1"])
      ∧ App.sidebarHistory
          (App.runExecuteSqlButton demoModel 0 ⟨["q0"], none⟩ "SELECT 1").st.query_history
        = ((App.runExecuteSqlButton demoModel 0 ⟨["q0"], none⟩
              "SELECT 1").st.query_history.drop
            ((App.runExecuteSqlButton demoModel 0 ⟨["q0"], none⟩
              "SELECT 1").st.query_history.length - 5)).reverse
      ∧ (App.sidebarHistory
          (App.runExecuteSqlButton demoModel 0 ⟨["q0"], none⟩
            "SELECT 1").st.query_history).length ≤ 5) :=
  ⟨by decide, spec_c9_amended demoModel 0 ⟨["q0"], none⟩ "SELECT 1" (by decide)⟩

/-- C10: the HTTP variant executes every submitted query — through
either route — exclusively as a `pd.read_sql` read inside a session
scope with no commit on any code path: the committed database state
after the call equals the state before it, whatever the query and
whatever the driver does. -/
theorem spec_c10 {σ : Type} (M : DBModel σ) (c : σ) (q t : String) :
    (Api.execute_sql M c ⟨q⟩).trace = [.acquire, .read q, .release]
    ∧ (Api.execute_sql M c ⟨q⟩).committed = c
    ∧ (Api.get_table_data M c t).trace
        = [.acquire, .read ("SELECT * FROM " ++ t ++ " LIMIT 1000"), .release]
    ∧ (Api.get_table_data M c t).committed = c
    ∧ (∀ ev ∈ (Api.execute_sql M c ⟨q⟩).trace, DbEvent.isCommit ev = false)
    ∧ (∀ ev ∈ (Api.get_table_data M c t).trace, DbEvent.isCommit ev = false) := by
  refine ⟨api_execute_sql_trace M c ⟨q⟩, api_execute_sql_committed M c ⟨q⟩,
    api_get_table_trace M c t, api_get_table_committed M c t, ?_, ?_⟩
  · rw [api_execute_sql_trace]
    intro ev hev
    simp only [List.mem_cons, List.not_mem_nil, or_false] at hev
    rcases hev with rfl | rfl | rfl <;> rfl
  · rw [api_get_table_trace]
    intro ev hev
    simp only [List.mem_cons, List.not_mem_nil, or_false] at hev
    rcases hev with rfl | rfl | rfl <;> rfl
